import Mathlib

/-!
Shallow embedding of the e2e-test HTTPS fixture scripts
`e2e-tests/server.py` and `e2e-tests/signing/server.py`.

`server.py` removes seven scratch files, runs three `openssl` commands
(CA key/cert generation, server CSR generation, leaf signing with an
extension file it writes), then starts an HTTPS file server on port 4443.
`signing/server.py` reads the certificate directory from the `CERT_DIR`
environment variable and starts the same kind of server.

The filesystem is modelled as a partial map from path strings to typed
file contents, together with a read-only flag per path (so that deletion
and write failures other than "file not found" can be expressed).  The
`openssl` subprocesses are modelled at command granularity with the
flags taken from the command lines in the source; their documented
effects on the produced X.509 artifacts are captured by the
`Certificate`/`CSR` records below.
-/

namespace E2E

/-- X.509 distinguished name, restricted to the components used by the
scripts (`-subj "/C=.../CN=..."`). -/
structure DName where
  country : Option String
  commonName : Option String
deriving DecidableEq

/-- Signature algorithm; the scripts always pass `-sha256`. -/
inductive SigAlg
  | sha256
deriving DecidableEq

/-- An X.509 certificate as far as the scripts' behavior is concerned.
Key material is identified abstractly by a natural number: a signature
made with the private key of material `m` verifies exactly under the
public key of material `m` (`sigKeyMaterial`). Extension fields are
`Option`s: `none` means the extension is absent. -/
structure Certificate where
  subject : DName
  issuer : DName
  pubKeyMaterial : Nat
  pubKeyBits : Nat
  sigKeyMaterial : Nat
  sigAlg : SigAlg
  serial : Nat
  validityDays : Nat
  basicConstraintsCA : Option Bool
  keyUsage : Option (List String)
  san : Option (List String)
  authorityKeyIdentifier : Option String
deriving DecidableEq

/-- A certificate signing request: a proposed subject bound to a public
key, self-signed by the matching private key. -/
structure CSR where
  subject : DName
  pubKeyMaterial : Nat
  pubKeyBits : Nat
  sigAlg : SigAlg
deriving DecidableEq

/-- Typed file contents for the scratch directory. `blob` stands for a
stale or foreign file left over from an earlier run. -/
inductive FileData
  | pemKey (material : Nat) (bits : Nat)
  | pemCert (c : Certificate)
  | csrFile (c : CSR)
  | textFile (s : String)
  | srlFile (next : Nat)
  | blob (id : Nat)
deriving DecidableEq

/-- Filesystem model: contents per path, plus a read-only flag per path
(true means both deletion and overwriting fail with a permission error). -/
structure FS where
  contents : String → Option FileData
  readonly : String → Bool

def FS.set (fs : FS) (p : String) (d : FileData) : FS :=
  { fs with contents := fun q => if q = p then some d else fs.contents q }

def FS.erase (fs : FS) (p : String) : FS :=
  { fs with contents := fun q => if q = p then none else fs.contents q }

/-- Errors raised by the modelled OS / library calls. -/
inductive OSErr
  | fileNotFound
  | permissionDenied
deriving DecidableEq

/-- `os.remove(path)`: raises `FileNotFoundError` when the path does not
exist, `PermissionError` when it exists but may not be deleted, and
otherwise removes it. -/
def osRemove (fs : FS) (p : String) : Except OSErr FS :=
  match fs.contents p with
  | none => .error .fileNotFound
  | some _ =>
    if fs.readonly p then .error .permissionDenied
    else .ok (fs.erase p)

/-- Projection of `osRemove` onto the error it raises, if any. -/
def osRemoveErr (fs : FS) (p : String) : Option OSErr :=
  match osRemove fs p with
  | .error e => some e
  | .ok _ => none

/-- `remove_file(path)` from `server.py` lines 5-9: calls `os.remove`
inside `try: ... except: pass`.  The second component is the exception
propagated to the caller; the bare `except:` means it is always `none`. -/
def remove_file (fs : FS) (p : String) : FS × Option OSErr :=
  match osRemove fs p with
  | .ok fs' => (fs', none)
  | .error _ => (fs, none)

/-- The exact text written to `server.ext` by `server.py` lines 20-28. -/
def serverExtContents : String :=
  "\nauthorityKeyIdentifier=keyid,issuer\nbasicConstraints=CA:FALSE\nkeyUsage = digitalSignature, nonRepudiation, keyEncipherment, dataEncipherment\nsubjectAltName = @alt_names\n[alt_names]\nDNS.1 = localhost\n"

/-! ### Parsing the extension file

`openssl x509 -req -extfile server.ext` interprets the extension file as
an openssl config fragment: `key = value` lines in the default section,
`[name]` section headers, and `DNS.n = host` entries inside the section
referenced by `subjectAltName = @name`.  The parser below models that
interpretation for the constructs the file uses, operating structurally
on character lists. -/

def isSpaceChar (c : Char) : Bool :=
  c == ' ' || c == '\t' || c == '\r'

def trimChars (l : List Char) : List Char :=
  ((l.dropWhile isSpaceChar).reverse.dropWhile isSpaceChar).reverse

/-- Split a character list at every occurrence of `c`. -/
def splitCharAux (c : Char) : List Char → List Char → List (List Char)
  | [], acc => [acc.reverse]
  | x :: xs, acc =>
    if x == c then acc.reverse :: splitCharAux c xs []
    else splitCharAux c xs (x :: acc)

def splitChar (c : Char) (l : List Char) : List (List Char) :=
  splitCharAux c l []

/-- Split a line at its first `=`, returning the raw key and value. -/
def splitEqAux : List Char → List Char → Option (List Char × List Char)
  | [], _ => none
  | x :: xs, acc =>
    if x == '=' then some (acc.reverse, xs)
    else splitEqAux xs (x :: acc)

/-- Structured content of the extension file, as `openssl` reads it. -/
structure ExtFileCfg where
  authorityKeyIdentifier : Option String
  basicConstraints : Option String
  keyUsage : Option (List String)
  subjectAltName : Option String
  altNamesDNS : List String
deriving DecidableEq

def emptyExtCfg : ExtFileCfg :=
  { authorityKeyIdentifier := none, basicConstraints := none, keyUsage := none,
    subjectAltName := none, altNamesDNS := [] }

/-- Process one line of the extension file.  The boolean records whether
we are inside the `[alt_names]` section. -/
def applyExtLine (inAlt : Bool) (cfg : ExtFileCfg) (l : List Char) : Bool × ExtFileCfg :=
  let t := trimChars l
  match t with
  | [] => (inAlt, cfg)
  | '[' :: _ =>
    (t == "[alt_names]".toList, cfg)
  | _ =>
    match splitEqAux t [] with
    | none => (inAlt, cfg)
    | some (k, v) =>
      let key := trimChars k
      let val := trimChars v
      if inAlt then
        if key.take 4 == "DNS.".toList then
          (inAlt, { cfg with altNamesDNS := cfg.altNamesDNS ++ [String.mk val] })
        else (inAlt, cfg)
      else if key == "authorityKeyIdentifier".toList then
        (inAlt, { cfg with authorityKeyIdentifier := some (String.mk val) })
      else if key == "basicConstraints".toList then
        (inAlt, { cfg with basicConstraints := some (String.mk val) })
      else if key == "keyUsage".toList then
        let usages := (splitChar ',' val).map (fun s => String.mk (trimChars s))
        (inAlt, { cfg with keyUsage := some usages })
      else if key == "subjectAltName".toList then
        (inAlt, { cfg with subjectAltName := some (String.mk val) })
      else (inAlt, cfg)

def parseExtLines : Bool → ExtFileCfg → List (List Char) → ExtFileCfg
  | _, cfg, [] => cfg
  | inAlt, cfg, l :: ls =>
    let r := applyExtLine inAlt cfg l
    parseExtLines r.1 r.2 ls

def parseExtFile (s : String) : ExtFileCfg :=
  parseExtLines false emptyExtCfg (splitChar '\n' s.toList)

/-- Interpretation of a `basicConstraints` extension value. -/
def parseBasicConstraints : Option String → Option Bool
  | none => none
  | some v =>
    if v = "CA:FALSE" then some false
    else if v = "CA:TRUE" then some true
    else none

/-- Resolution of the `subjectAltName` value to a DNS-name list.  Only
the `@section` reference form used by this repository is modelled; the
file at hand uses `@alt_names`. -/
def resolveSAN (cfg : ExtFileCfg) : Option (List String) :=
  match cfg.subjectAltName with
  | none => none
  | some v => if v = "@alt_names" then some cfg.altNamesDNS else some []

/-! ### The openssl operations

Each `os.system('openssl ...')` call of `server.py` is modelled at
command granularity.  The subject names, key sizes, digest and validity
are taken from the flags on the command lines; the effect of each
command on the X.509 artifacts follows the documented behavior of the
invoked openssl subcommand. -/

/-- `-subj "/C=UT/CN=ca.localhost"` from line 18. -/
def caSubject : DName :=
  { country := some "UT", commonName := some "ca.localhost" }

/-- `-subj "/C=UT/CN=localhost"` from line 19. -/
def serverSubject : DName :=
  { country := some "UT", commonName := some "localhost" }

/-- Certificate produced by line 18,
`openssl req -newkey rsa:4096 -x509 -sha256 -days 1 -nodes -out ca.pem
-keyout ca.key -subj "/C=UT/CN=ca.localhost"`: a self-signed
certificate (issuer = subject, signed with its own fresh key) which
`openssl req -x509` marks as a CA (`basicConstraints: CA=TRUE`). -/
def mkCACert (keyMat serialNo : Nat) : Certificate :=
  { subject := caSubject, issuer := caSubject
    pubKeyMaterial := keyMat, pubKeyBits := 4096
    sigKeyMaterial := keyMat, sigAlg := .sha256
    serial := serialNo, validityDays := 1
    basicConstraintsCA := some true
    keyUsage := none, san := none, authorityKeyIdentifier := none }

/-- CSR produced by line 19,
`openssl req -new -newkey rsa:4096 -sha256 -nodes -out server.csr
-keyout server.key -subj "/C=UT/CN=localhost"`. -/
def mkServerCSR (keyMat : Nat) : CSR :=
  { subject := serverSubject, pubKeyMaterial := keyMat
    pubKeyBits := 4096, sigAlg := .sha256 }

/-- Serial-number bookkeeping of `-CAcreateserial` (line 29).  Modelled
from the spec: the CA serial file holds the next serial to issue; when
it is absent a fresh random serial is used and the file is created; the
issued serial is stored incremented, so successive issuances consume
monotonically increasing values. -/
def nextSerial : Option Nat → Nat → Nat × Nat
  | none, r => (r, r + 1)
  | some s, _ => (s, s + 1)

/-- Serials consumed by `n` successive leaf issuances starting from a
given serial-file state, with `rng` supplying fresh random serials. -/
def serialSeq : Option Nat → (Nat → Nat) → Nat → List Nat
  | _, _, 0 => []
  | st, rng, n + 1 =>
    let p := nextSerial st (rng 0)
    p.1 :: serialSeq (some p.2) (fun i => rng (i + 1)) n

/-- Certificate produced by line 29,
`openssl x509 -req -in server.csr -CA ca.pem -CAkey ca.key
-CAcreateserial -out server.pem -days 1 -sha256 -extfile server.ext`:
subject and public key from the CSR, issuer copied from the CA
certificate's subject, signed with the CA key, extensions taken from
the extension file. -/
def signCSR (csr : CSR) (caCert : Certificate) (caKeyMat serialNo : Nat)
    (cfg : ExtFileCfg) : Certificate :=
  { subject := csr.subject, issuer := caCert.subject
    pubKeyMaterial := csr.pubKeyMaterial, pubKeyBits := csr.pubKeyBits
    sigKeyMaterial := caKeyMat, sigAlg := .sha256
    serial := serialNo, validityDays := 1
    basicConstraintsCA := parseBasicConstraints cfg.basicConstraints
    keyUsage := cfg.keyUsage
    san := resolveSAN cfg
    authorityKeyIdentifier := cfg.authorityKeyIdentifier }

/-- The leaf's signature verifies under `issuerCert`'s public key. -/
abbrev sigVerifiesUnder (c issuerCert : Certificate) : Prop :=
  c.sigKeyMaterial = issuerCert.pubKeyMaterial

/-! ### Running `server.py` -/

/-- Environment of one run of `server.py`: the initial scratch
directory, a stream of fresh random values consumed by key generation
and serial creation, a per-command oracle saying whether the openssl
invocation itself succeeds (`false` models e.g. a missing or failing
`openssl` binary; `os.system`'s return value reports this), and the
current working directory. -/
structure World where
  fs : FS
  rand : Nat → Nat
  sysOk : Nat → Bool
  cwd : String

/-- The three openssl invocations, in source order. -/
inductive Cmd
  | genCAKeyCert
  | genServerCSR
  | signLeafCert
deriving DecidableEq

/-- Observable steps of a run, in execution order. -/
inductive Event
  | removeCall (path : String)
  | sysCmd (c : Cmd) (ok : Bool)
  | writeFile (path : String)
  | serverCreated (bind : String) (port : Nat)
  | chainLoaded (certfile keyfile : String)
  | socketWrapped
deriving DecidableEq

/-- Exceptions that terminate the python process (non-zero exit). -/
inductive PyErr
  | keyError (key : String)
  | ioWriteError
  | sslCertError
deriving DecidableEq

/-- Configuration of the HTTPS server once it reaches
`serve_forever()`. -/
structure ServeConfig where
  bind : String
  port : Nat
  certfile : String
  keyfile : String
  docRoot : String
deriving DecidableEq

/-- Final state of a run: serving forever, or dead from an uncaught
exception (the process exits with a non-zero status). -/
inductive Outcome
  | serving (cfg : ServeConfig)
  | crashed (e : PyErr)
deriving DecidableEq

/-- The seven paths deleted by `server.py` lines 11-17, in order. -/
def removalPaths : List String :=
  ["ca.pem", "ca.srl", "ca.key", "server.csr", "server.ext", "server.pem", "server.key"]

def removalEvents : List Event :=
  removalPaths.map Event.removeCall

/-- Lines 11-17: the seven `remove_file` calls. -/
def cleanupFS (fs : FS) : FS :=
  (remove_file
    (remove_file
      (remove_file
        (remove_file
          (remove_file
            (remove_file
              (remove_file fs "ca.pem").1
              "ca.srl").1
            "ca.key").1
          "server.csr").1
        "server.ext").1
      "server.pem").1
    "server.key").1

/-- Lines 18-36 of `server.py`, starting from the cleaned-up
filesystem: the three openssl commands (whose exit statuses are
ignored, as `os.system`'s return value is discarded), the
`server.ext` write, and the HTTPS server startup.  A command succeeds
when its oracle bit is set, its input files are present with the
expected shape and its output files are writable; a failed command
leaves the filesystem unchanged.  `ssl.SSLContext.load_cert_chain`
succeeds when both files are present and the key matches the
certificate. -/
def provisionAndServe (w : World) (fs0 : FS) : Outcome × List Event × FS :=
  -- line 18: CA key and self-signed CA certificate
  let caOk := w.sysOk 0 && !fs0.readonly "ca.pem" && !fs0.readonly "ca.key"
  let fs1 := if caOk then
      (fs0.set "ca.key" (.pemKey (w.rand 0) 4096)).set "ca.pem"
        (.pemCert (mkCACert (w.rand 0) (w.rand 1)))
    else fs0
  let e1 := Event.sysCmd .genCAKeyCert caOk
  -- line 19: server key and CSR
  let csrOk := w.sysOk 1 && !fs1.readonly "server.csr" && !fs1.readonly "server.key"
  let fs2 := if csrOk then
      (fs1.set "server.key" (.pemKey (w.rand 2) 4096)).set "server.csr"
        (.csrFile (mkServerCSR (w.rand 2)))
    else fs1
  let e2 := Event.sysCmd .genServerCSR csrOk
  -- lines 20-28: write server.ext (an uncaught IOError kills the process)
  if fs2.readonly "server.ext" then (.crashed .ioWriteError, [e1, e2], fs2)
  else
    let fs3 := fs2.set "server.ext" (.textFile serverExtContents)
    let e3 := Event.writeFile "server.ext"
    -- line 29: sign the CSR with the CA
    let signed : Option FS :=
      match fs3.contents "server.csr", fs3.contents "ca.pem",
            fs3.contents "ca.key", fs3.contents "server.ext" with
      | some (.csrFile csr), some (.pemCert cac),
        some (.pemKey ckm _), some (.textFile ext) =>
        if w.sysOk 2 && !fs3.readonly "server.pem" && !fs3.readonly "ca.srl" then
          let srl0 : Option Nat :=
            match fs3.contents "ca.srl" with
            | some (.srlFile s) => some s
            | _ => none
          let p := nextSerial srl0 (w.rand 3)
          some ((fs3.set "server.pem"
              (.pemCert (signCSR csr cac ckm p.1 (parseExtFile ext)))).set
            "ca.srl" (.srlFile p.2))
        else none
      | _, _, _, _ => none
    let fs4 := signed.getD fs3
    let e4 := Event.sysCmd .signLeafCert signed.isSome
    -- lines 31-32: HTTPServer(('', 4443), SimpleHTTPRequestHandler)
    let e5 := Event.serverCreated "" 4443
    -- lines 33-36: load_cert_chain, wrap_socket, serve_forever
    match fs4.contents "server.pem", fs4.contents "server.key" with
    | some (.pemCert c), some (.pemKey km _) =>
      if km = c.pubKeyMaterial then
        (.serving { bind := "", port := 4443, certfile := "server.pem",
                    keyfile := "server.key", docRoot := w.cwd },
         [e1, e2, e3, e4, e5, .chainLoaded "server.pem" "server.key", .socketWrapped],
         fs4)
      else (.crashed .sslCertError, [e1, e2, e3, e4, e5], fs4)
    | _, _ => (.crashed .sslCertError, [e1, e2, e3, e4, e5], fs4)

/-- One full run of `server.py`: cleanup, provisioning, server
startup.  Returns the final outcome, the event trace and the final
filesystem. -/
def runServerPy (w : World) : Outcome × List Event × FS :=
  let fs0 := cleanupFS w.fs
  let r := provisionAndServe w fs0
  (r.1, removalEvents ++ r.2.1, r.2.2)

/-! ### Running `signing/server.py` -/

/-- Environment of a run of `signing/server.py`. -/
structure SWorld where
  env : String → Option String
  fs : FS
  scriptDir : String

inductive SEvent
  | envRead (key : String) (found : Bool)
  | chdirTo (dir : String)
  | serverCreated (bind : String) (port : Nat)
  | chainLoaded (certfile keyfile : String)
  | socketWrapped
deriving DecidableEq

/-- `signing/server.py`: read `CERT_DIR` from the environment (a
missing variable raises an uncaught `KeyError` on line 6, before
anything else happens), `os.chdir` to the script's directory, create
the HTTP server on `('', 4443)`, and load
`cert_dir / "server.pem"` and `cert_dir / "server.key"`. -/
def runSigningServerPy (w : SWorld) : Outcome × List SEvent :=
  match w.env "CERT_DIR" with
  | none => (.crashed (.keyError "CERT_DIR"), [.envRead "CERT_DIR" false])
  | some d =>
    let e0 := SEvent.envRead "CERT_DIR" true
    let e1 := SEvent.chdirTo w.scriptDir
    let e2 := SEvent.serverCreated "" 4443
    let cf := d ++ "/server.pem"
    let kf := d ++ "/server.key"
    match w.fs.contents cf, w.fs.contents kf with
    | some (.pemCert c), some (.pemKey km _) =>
      if km = c.pubKeyMaterial then
        (.serving { bind := "", port := 4443, certfile := cf, keyfile := kf,
                    docRoot := w.scriptDir },
         [e0, e1, e2, .chainLoaded cf kf, .socketWrapped])
      else (.crashed .sslCertError, [e0, e1, e2])
    | _, _ => (.crashed .sslCertError, [e0, e1, e2])

/-! ### Concrete environments used by the witnesses -/

/-- An empty, fully writable scratch directory with all commands
succeeding. -/
def cleanWorld : World :=
  { fs := { contents := fun _ => none, readonly := fun _ => false }
    rand := fun n => n + 100
    sysOk := fun _ => true
    cwd := "/work" }

/-- Like `cleanWorld`, but the CA-generation command (the first
`os.system` call) fails. -/
def failCAWorld : World :=
  { cleanWorld with sysOk := fun i => i != 0 }

/-- All scratch paths writable in `fs`. -/
def writableAll (fs : FS) : Bool :=
  removalPaths.all (fun p => !fs.readonly p)

/-! ### Basic lemmas about the filesystem model -/

@[simp] lemma FS.contents_set (fs : FS) (p : String) (d : FileData) (q : String) :
    (fs.set p d).contents q = if q = p then some d else fs.contents q := rfl

@[simp] lemma FS.readonly_set (fs : FS) (p : String) (d : FileData) :
    (fs.set p d).readonly = fs.readonly := rfl

@[simp] lemma FS.contents_erase (fs : FS) (p q : String) :
    (fs.erase p).contents q = if q = p then none else fs.contents q := rfl

@[simp] lemma FS.readonly_erase (fs : FS) (p : String) :
    (fs.erase p).readonly = fs.readonly := rfl

lemma remove_file_fst_readonly (fs : FS) (p : String) :
    ((remove_file fs p).1).readonly = fs.readonly := by
  unfold remove_file osRemove
  rcases hc : fs.contents p with _ | d
  · simp
  · by_cases hr : fs.readonly p <;> simp [hr, FS.erase]

lemma remove_file_fst_contents (fs : FS) (p : String) (h : fs.readonly p = false)
    (q : String) :
    ((remove_file fs p).1).contents q = if q = p then none else fs.contents q := by
  unfold remove_file osRemove
  rcases hc : fs.contents p with _ | d
  · by_cases hq : q = p <;> simp [hc, hq]
  · simp [h]

lemma writableAll_unpack (fs : FS) (h : writableAll fs = true) :
    fs.readonly "ca.pem" = false ∧ fs.readonly "ca.srl" = false ∧
    fs.readonly "ca.key" = false ∧ fs.readonly "server.csr" = false ∧
    fs.readonly "server.ext" = false ∧ fs.readonly "server.pem" = false ∧
    fs.readonly "server.key" = false := by
  simpa [writableAll, removalPaths] using h

lemma cleanupFS_readonly (fs : FS) : (cleanupFS fs).readonly = fs.readonly := by
  unfold cleanupFS
  simp [remove_file_fst_readonly]

lemma cleanupFS_contents_none (fs : FS) (h : writableAll fs = true) :
    (cleanupFS fs).contents "ca.pem" = none ∧
    (cleanupFS fs).contents "ca.srl" = none ∧
    (cleanupFS fs).contents "ca.key" = none ∧
    (cleanupFS fs).contents "server.csr" = none ∧
    (cleanupFS fs).contents "server.ext" = none ∧
    (cleanupFS fs).contents "server.pem" = none ∧
    (cleanupFS fs).contents "server.key" = none := by
  obtain ⟨h1, h2, h3, h4, h5, h6, h7⟩ := writableAll_unpack fs h
  unfold cleanupFS
  simp [remove_file_fst_contents, remove_file_fst_readonly,
    h1, h2, h3, h4, h5, h6, h7]

/-! ### Closed forms of a run over a writable scratch directory -/

/-- Post-cleanup portion of the trace, as a function of the three
command oracles. -/
def provTrace (a b c : Bool) : List Event :=
  [.sysCmd .genCAKeyCert a, .sysCmd .genServerCSR b, .writeFile "server.ext",
   .sysCmd .signLeafCert (a && b && c), .serverCreated "" 4443]
  ++ (if a && b && c then [.chainLoaded "server.pem" "server.key", .socketWrapped] else [])

/-- Configuration reached by a successful run of `server.py`. -/
def cleanCfg (cwd : String) : ServeConfig :=
  { bind := "", port := 4443, certfile := "server.pem", keyfile := "server.key",
    docRoot := cwd }

/-- The leaf certificate a successful run leaves in `server.pem`. -/
def leafOf (w : World) : Certificate :=
  signCSR (mkServerCSR (w.rand 2)) (mkCACert (w.rand 0) (w.rand 1)) (w.rand 0)
    (w.rand 3) (parseExtFile serverExtContents)

/-- Master description of `runServerPy` over a writable scratch
directory: the outcome, the trace, and the final contents of `ca.pem`
and `server.pem`, all as functions of the three command oracles. -/
lemma run_master (w : World) (h : writableAll w.fs = true) :
    (runServerPy w).1 = (if w.sysOk 0 && w.sysOk 1 && w.sysOk 2 then
        .serving (cleanCfg w.cwd) else .crashed .sslCertError)
    ∧ (runServerPy w).2.1 = removalEvents ++ provTrace (w.sysOk 0) (w.sysOk 1) (w.sysOk 2)
    ∧ (runServerPy w).2.2.contents "ca.pem" = (if w.sysOk 0 then
        some (.pemCert (mkCACert (w.rand 0) (w.rand 1))) else none)
    ∧ (runServerPy w).2.2.contents "server.pem" =
        (if w.sysOk 0 && w.sysOk 1 && w.sysOk 2 then
          some (.pemCert (leafOf w)) else none) := by
  obtain ⟨h1, h2, h3, h4, h5, h6, h7⟩ := writableAll_unpack w.fs h
  obtain ⟨c1, c2, c3, c4, c5, c6, c7⟩ := cleanupFS_contents_none w.fs h
  have hro := cleanupFS_readonly w.fs
  cases ha : w.sysOk 0 <;> cases hb : w.sysOk 1 <;> cases hc : w.sysOk 2 <;>
    simp [runServerPy, provisionAndServe, provTrace, cleanCfg, leafOf,
      ha, hb, hc, hro, h1, h2, h3, h4, h5, h6, h7, c1, c2, c3, c4, c5, c6, c7,
      nextSerial, mkServerCSR, signCSR]

/-! ### Serial-number lemmas -/

lemma serialSeq_mem_ge : ∀ (n s x : Nat) (rng : Nat → Nat),
    x ∈ serialSeq (some s) rng n → s ≤ x := by
  intro n
  induction n with
  | zero => intro s x rng hx; simp [serialSeq] at hx
  | succ n ih =>
    intro s x rng hx
    simp only [serialSeq, nextSerial] at hx
    rcases List.mem_cons.mp hx with rfl | hx
    · exact Nat.le_refl x
    · exact Nat.le_trans (Nat.le_succ s) (ih (s + 1) x _ hx)

lemma serialSeq_some_pairwise : ∀ (n s : Nat) (rng : Nat → Nat),
    List.Pairwise (· < ·) (serialSeq (some s) rng n) := by
  intro n
  induction n with
  | zero => intro s rng; simp [serialSeq]
  | succ n ih =>
    intro s rng
    simp only [serialSeq, nextSerial]
    refine List.Pairwise.cons (fun x hx => ?_) (ih (s + 1) _)
    exact Nat.lt_of_lt_of_le (Nat.lt_succ_self s) (serialSeq_mem_ge n (s + 1) x _ hx)

lemma serialSeq_none_pairwise (n : Nat) (rng : Nat → Nat) :
    List.Pairwise (· < ·) (serialSeq none rng n) := by
  cases n with
  | zero => simp [serialSeq]
  | succ n =>
    simp only [serialSeq, nextSerial]
    refine List.Pairwise.cons (fun x hx => ?_) (serialSeq_some_pairwise n _ _)
    exact Nat.lt_of_lt_of_le (Nat.lt_succ_self (rng 0)) (serialSeq_mem_ge n _ x _ hx)

/-- Discriminator for cleanup events. -/
def Event.isRemoveCall : Event → Bool
  | .removeCall _ => true
  | _ => false

lemma provTrace_no_removeCall (a b c : Bool) :
    ∀ e ∈ provTrace a b c, e.isRemoveCall = false := by
  cases h : (a && b && c) <;> simp [provTrace, h, Event.isRemoveCall]

/-! ### Further concrete inputs used by the claims -/

/-- A directory holding a stale, undeletable `ca.pem` (deleting it
raises `PermissionError`). -/
def roBlobFS : FS :=
  { contents := fun p => if p = "ca.pem" then some (.blob 0) else none
    readonly := fun p => p == "ca.pem" }

/-- A leaf certificate placed in the signing variant's cert directory. -/
def demoLeaf : Certificate :=
  { subject := serverSubject, issuer := caSubject, pubKeyMaterial := 7
    pubKeyBits := 4096, sigKeyMaterial := 5, sigAlg := .sha256, serial := 1
    validityDays := 1, basicConstraintsCA := some false, keyUsage := none
    san := none, authorityKeyIdentifier := none }

/-- Environment for `signing/server.py` with `CERT_DIR=/certs` and a
matching certificate/key pair in place. -/
def certsSWorld : SWorld :=
  { env := fun k => if k = "CERT_DIR" then some "/certs" else none
    fs := { contents := fun p =>
              if p = "/certs/server.pem" then some (.pemCert demoLeaf)
              else if p = "/certs/server.key" then some (.pemKey 7 4096)
              else none
            readonly := fun _ => false }
    scriptDir := "/repo/e2e-tests/signing" }

/-- Same directory but with `CERT_DIR` unset. -/
def noEnvSWorld : SWorld :=
  { certsSWorld with env := fun _ => none }

/-! ## Claims -/

/-- C1: in any run of `server.py` over a writable scratch directory
that issues a server certificate (`server.pem`) and a CA certificate
(`ca.pem`), the server certificate's issuer field equals the CA
certificate's subject field and its signature verifies under the CA
certificate's public key. -/
theorem claim1_leaf_issuer_and_signature (w : World) (leaf ca : Certificate)
    (hw : writableAll w.fs = true)
    (hleaf : (runServerPy w).2.2.contents "server.pem" = some (.pemCert leaf))
    (hca : (runServerPy w).2.2.contents "ca.pem" = some (.pemCert ca)) :
    leaf.issuer = ca.subject ∧ sigVerifiesUnder leaf ca := by
  obtain ⟨-, -, hcap, hsp⟩ := run_master w hw
  cases ha : w.sysOk 0 <;> cases hb : w.sysOk 1 <;> cases hc2 : w.sysOk 2 <;>
    simp [ha, hb, hc2] at hcap hsp <;> rw [hsp] at hleaf <;> rw [hcap] at hca <;>
    simp at hleaf hca
  · subst hleaf; subst hca
    simp [leafOf, signCSR, mkCACert, mkServerCSR]

/-- C1 witness: the clean run issues both certificates and the issuer
and signature properties hold for them. -/
theorem claim1_witness :
    writableAll cleanWorld.fs = true
    ∧ (runServerPy cleanWorld).2.2.contents "server.pem" =
        some (.pemCert (leafOf cleanWorld))
    ∧ (runServerPy cleanWorld).2.2.contents "ca.pem" =
        some (.pemCert (mkCACert 100 101))
    ∧ ((leafOf cleanWorld).issuer = (mkCACert 100 101).subject
        ∧ sigVerifiesUnder (leafOf cleanWorld) (mkCACert 100 101)) :=
  ⟨by decide, by decide, by decide,
    claim1_leaf_issuer_and_signature cleanWorld (leafOf cleanWorld)
      (mkCACert 100 101) (by decide) (by decide) (by decide)⟩

/-- C2: the issued server certificate carries
`basicConstraints CA=FALSE`, the four key usages from `server.ext`, and
a `subjectAltName` DNS entry `localhost`; the CA certificate carries
`CA=TRUE`. -/
theorem claim2_leaf_and_ca_extensions (w : World) (leaf ca : Certificate)
    (hw : writableAll w.fs = true)
    (hleaf : (runServerPy w).2.2.contents "server.pem" = some (.pemCert leaf))
    (hca : (runServerPy w).2.2.contents "ca.pem" = some (.pemCert ca)) :
    leaf.basicConstraintsCA = some false
    ∧ leaf.keyUsage = some ["digitalSignature", "nonRepudiation",
        "keyEncipherment", "dataEncipherment"]
    ∧ leaf.san = some ["localhost"]
    ∧ ca.basicConstraintsCA = some true := by
  obtain ⟨-, -, hcap, hsp⟩ := run_master w hw
  cases ha : w.sysOk 0 <;> cases hb : w.sysOk 1 <;> cases hc2 : w.sysOk 2 <;>
    simp [ha, hb, hc2] at hcap hsp <;> rw [hsp] at hleaf <;> rw [hcap] at hca <;>
    simp at hleaf hca
  · subst hleaf; subst hca
    refine ⟨?_, ?_, ?_, by simp [mkCACert]⟩ <;>
      simp only [leafOf, signCSR] <;> decide

/-- C2 witness: the extension facts hold for the certificates issued by
the clean run. -/
theorem claim2_witness :
    writableAll cleanWorld.fs = true
    ∧ (runServerPy cleanWorld).2.2.contents "server.pem" =
        some (.pemCert (leafOf cleanWorld))
    ∧ (runServerPy cleanWorld).2.2.contents "ca.pem" =
        some (.pemCert (mkCACert 100 101))
    ∧ ((leafOf cleanWorld).basicConstraintsCA = some false
        ∧ (leafOf cleanWorld).keyUsage = some ["digitalSignature", "nonRepudiation",
            "keyEncipherment", "dataEncipherment"]
        ∧ (leafOf cleanWorld).san = some ["localhost"]
        ∧ (mkCACert 100 101).basicConstraintsCA = some true) :=
  ⟨by decide, by decide, by decide,
    claim2_leaf_and_ca_extensions cleanWorld (leafOf cleanWorld)
      (mkCACert 100 101) (by decide) (by decide) (by decide)⟩

/-- C3 counterexample: in the run `failCAWorld` the CA-generation
command fails, yet the program does not abort: the CSR command, the
`server.ext` write, the signing command and the HTTP-server
construction all still execute (and only afterwards does the process
die, at certificate loading). `os.system`'s return value is ignored, so
a failing provisioning step does not abort startup immediately. -/
theorem claim3_counterexample :
    Event.sysCmd .genCAKeyCert false ∈ (runServerPy failCAWorld).2.1
    ∧ Event.sysCmd .genServerCSR true ∈ (runServerPy failCAWorld).2.1
    ∧ Event.writeFile "server.ext" ∈ (runServerPy failCAWorld).2.1
    ∧ Event.serverCreated "" 4443 ∈ (runServerPy failCAWorld).2.1
    ∧ (runServerPy failCAWorld).2.1 = removalEvents ++
        [.sysCmd .genCAKeyCert false, .sysCmd .genServerCSR true,
         .writeFile "server.ext", .sysCmd .signLeafCert false,
         .serverCreated "" 4443] := by
  decide

/-- C3 (amended): provisioning failures are not detected at the failing
step — the program continues through the remaining provisioning steps
and even constructs the HTTP server — but over a writable scratch
directory any failed openssl command leaves the certificate/key files
missing, so certificate loading fails and the process exits with a
non-zero status (uncaught exception) without ever serving. -/
theorem claim3_failure_still_fatal_before_serving (w : World) (c : Cmd)
    (hw : writableAll w.fs = true)
    (hfail : Event.sysCmd c false ∈ (runServerPy w).2.1) :
    (runServerPy w).1 = .crashed .sslCertError
    ∧ Event.serverCreated "" 4443 ∈ (runServerPy w).2.1 := by
  obtain ⟨ho, htr, -, -⟩ := run_master w hw
  rw [htr] at hfail
  constructor
  · cases ha : w.sysOk 0 <;> cases hb : w.sysOk 1 <;> cases hc2 : w.sysOk 2 <;>
      simp [ha, hb, hc2, removalEvents, removalPaths, provTrace] at ho hfail <;>
      exact ho
  · rw [htr]
    simp [provTrace, removalEvents, removalPaths]

/-- C3 witness: in `failCAWorld` the CA-generation step fails and the
run ends in a crash after constructing the server. -/
theorem claim3_witness :
    writableAll failCAWorld.fs = true
    ∧ Event.sysCmd .genCAKeyCert false ∈ (runServerPy failCAWorld).2.1
    ∧ ((runServerPy failCAWorld).1 = .crashed .sslCertError
        ∧ Event.serverCreated "" 4443 ∈ (runServerPy failCAWorld).2.1) :=
  ⟨by decide, by decide,
    claim3_failure_still_fatal_before_serving failCAWorld .genCAKeyCert
      (by decide) (by decide)⟩

/-- C4: `remove_file` never surfaces any deletion failure.  For a
read-only `ca.pem`, `os.remove` raises `PermissionError`, but
`remove_file`'s bare `except: pass` swallows it and the stale file
stays in place — contradicting the requirement that failures other than
a missing file be surfaced to the caller.  (The missing-file half of
the claim does hold: that error too is swallowed.) -/
theorem claim4_remove_file_swallows_all_errors :
    osRemoveErr roBlobFS "ca.pem" = some .permissionDenied
    ∧ (remove_file roBlobFS "ca.pem").2 = none
    ∧ (remove_file roBlobFS "ca.pem").1.contents "ca.pem" = some (.blob 0)
    ∧ osRemoveErr cleanWorld.fs "ca.pem" = some .fileNotFound
    ∧ (remove_file cleanWorld.fs "ca.pem").2 = none := by
  decide

/-- C5: every CA certificate issued by a run of `server.py` over a
writable scratch directory is self-signed with subject country `UT`
and common name `ca.localhost`, an RSA 4096-bit key, SHA-256 signature
and a 1-day validity window. -/
theorem claim5_ca_certificate_shape (w : World) (ca : Certificate)
    (hw : writableAll w.fs = true)
    (hca : (runServerPy w).2.2.contents "ca.pem" = some (.pemCert ca)) :
    ca.subject = { country := some "UT", commonName := some "ca.localhost" }
    ∧ ca.issuer = ca.subject
    ∧ ca.pubKeyBits = 4096
    ∧ ca.sigAlg = .sha256
    ∧ ca.validityDays = 1
    ∧ ca.sigKeyMaterial = ca.pubKeyMaterial := by
  obtain ⟨-, -, hcap, -⟩ := run_master w hw
  cases ha : w.sysOk 0 <;> simp [ha] at hcap <;> rw [hcap] at hca <;> simp at hca
  · subst hca
    simp [mkCACert, caSubject]

/-- C5 witness: the CA certificate of the clean run. -/
theorem claim5_witness :
    writableAll cleanWorld.fs = true
    ∧ (runServerPy cleanWorld).2.2.contents "ca.pem" =
        some (.pemCert (mkCACert 100 101))
    ∧ ((mkCACert 100 101).subject =
          { country := some "UT", commonName := some "ca.localhost" }
        ∧ (mkCACert 100 101).issuer = (mkCACert 100 101).subject
        ∧ (mkCACert 100 101).pubKeyBits = 4096
        ∧ (mkCACert 100 101).sigAlg = .sha256
        ∧ (mkCACert 100 101).validityDays = 1
        ∧ (mkCACert 100 101).sigKeyMaterial = (mkCACert 100 101).pubKeyMaterial) :=
  ⟨by decide, by decide,
    claim5_ca_certificate_shape cleanWorld (mkCACert 100 101)
      (by decide) (by decide)⟩

/-- C6: the first seven events of every run are exactly the seven
`remove_file` calls, in source order; everything after position 7 is
provisioning/serving (no further removals); and after the cleanup phase
none of the seven artifact paths exists, so no stale artifact survives
into the generation steps. -/
theorem claim6_cleanup_precedes_generation (w : World)
    (hw : writableAll w.fs = true) :
    (runServerPy w).2.1.take 7 = removalEvents
    ∧ (runServerPy w).2.1.drop 7 =
        provTrace (w.sysOk 0) (w.sysOk 1) (w.sysOk 2)
    ∧ (∀ e ∈ (runServerPy w).2.1.drop 7, e.isRemoveCall = false)
    ∧ (∀ p ∈ removalPaths, (cleanupFS w.fs).contents p = none) := by
  obtain ⟨-, htr, -, -⟩ := run_master w hw
  refine ⟨rfl, ?_, ?_, ?_⟩
  · rw [htr]
    rfl
  · intro e he
    rw [htr] at he
    exact provTrace_no_removeCall _ _ _ e he
  · obtain ⟨d1, d2, d3, d4, d5, d6, d7⟩ := cleanupFS_contents_none w.fs hw
    intro p hp
    simp only [removalPaths, List.mem_cons, List.not_mem_nil, or_false] at hp
    rcases hp with rfl | rfl | rfl | rfl | rfl | rfl | rfl <;> assumption

/-- C6 witness: the cleanup facts for the clean run. -/
theorem claim6_witness :
    writableAll cleanWorld.fs = true
    ∧ ((runServerPy cleanWorld).2.1.take 7 = removalEvents
        ∧ (runServerPy cleanWorld).2.1.drop 7 =
            provTrace (cleanWorld.sysOk 0) (cleanWorld.sysOk 1) (cleanWorld.sysOk 2)
        ∧ (∀ e ∈ (runServerPy cleanWorld).2.1.drop 7, e.isRemoveCall = false)
        ∧ (∀ p ∈ removalPaths, (cleanupFS cleanWorld.fs).contents p = none)) :=
  ⟨by decide, claim6_cleanup_precedes_generation cleanWorld (by decide)⟩

/-- C7: with the serial file absent (every run removes `ca.srl` among
its first seven events), successive leaf issuances consume strictly
increasing serial numbers, so no serial is ever reissued within the
CA's lifetime. -/
theorem claim7_serials_monotone_never_reissued (n : Nat) (rng : Nat → Nat)
    (w : World) :
    List.Chain' (· < ·) (serialSeq none rng n)
    ∧ (serialSeq none rng n).Nodup
    ∧ Event.removeCall "ca.srl" ∈ (runServerPy w).2.1.take 7 := by
  refine ⟨(serialSeq_none_pairwise n rng).chain',
    List.Pairwise.imp (fun h => Nat.ne_of_lt h) (serialSeq_none_pairwise n rng), ?_⟩
  show Event.removeCall "ca.srl" ∈ removalEvents
  decide

/-- C8: whenever either script reaches `serve_forever()`, the server is
bound to port 4443 on all interfaces (empty bind address), the TLS
context is loaded from `server.pem`/`server.key` (resolved under
`CERT_DIR` in the signing variant), and files are served from the
current working directory. -/
theorem claim8_server_configuration (w : World) (sw : SWorld)
    (cfg cfg2 : ServeConfig) (d : String)
    (hw : writableAll w.fs = true)
    (hserve : (runServerPy w).1 = .serving cfg)
    (hd : sw.env "CERT_DIR" = some d)
    (hs2 : (runSigningServerPy sw).1 = .serving cfg2) :
    cfg.bind = "" ∧ cfg.port = 4443 ∧ cfg.certfile = "server.pem"
    ∧ cfg.keyfile = "server.key" ∧ cfg.docRoot = w.cwd
    ∧ cfg2.bind = "" ∧ cfg2.port = 4443 ∧ cfg2.certfile = d ++ "/server.pem"
    ∧ cfg2.keyfile = d ++ "/server.key" ∧ cfg2.docRoot = sw.scriptDir := by
  obtain ⟨ho, -, -, -⟩ := run_master w hw
  have hmain : cfg = cleanCfg w.cwd := by
    cases ha : w.sysOk 0 <;> cases hb : w.sysOk 1 <;> cases hc2 : w.sysOk 2 <;>
      simp [ha, hb, hc2] at ho <;> rw [ho] at hserve <;> simp_all
  subst hmain
  simp only [runSigningServerPy, hd] at hs2
  split at hs2
  · split at hs2
    · simp only [Outcome.serving.injEq] at hs2
      subst hs2
      simp [cleanCfg]
    · simp at hs2
  · simp at hs2

/-- C8 witness: both scripts reach the serving state on concrete clean
environments and the configuration facts hold there. -/
theorem claim8_witness :
    writableAll cleanWorld.fs = true
    ∧ (runServerPy cleanWorld).1 = .serving (cleanCfg "/work")
    ∧ certsSWorld.env "CERT_DIR" = some "/certs"
    ∧ (runSigningServerPy certsSWorld).1 = .serving
        { bind := "", port := 4443, certfile := "/certs/server.pem",
          keyfile := "/certs/server.key", docRoot := "/repo/e2e-tests/signing" }
    ∧ ((cleanCfg "/work").bind = "" ∧ (cleanCfg "/work").port = 4443
        ∧ (cleanCfg "/work").certfile = "server.pem"
        ∧ (cleanCfg "/work").keyfile = "server.key"
        ∧ (cleanCfg "/work").docRoot = cleanWorld.cwd
        ∧ (ServeConfig.mk "" 4443 "/certs/server.pem" "/certs/server.key"
            "/repo/e2e-tests/signing").bind = ""
        ∧ (ServeConfig.mk "" 4443 "/certs/server.pem" "/certs/server.key"
            "/repo/e2e-tests/signing").port = 4443
        ∧ (ServeConfig.mk "" 4443 "/certs/server.pem" "/certs/server.key"
            "/repo/e2e-tests/signing").certfile = "/certs" ++ "/server.pem"
        ∧ (ServeConfig.mk "" 4443 "/certs/server.pem" "/certs/server.key"
            "/repo/e2e-tests/signing").keyfile = "/certs" ++ "/server.key"
        ∧ (ServeConfig.mk "" 4443 "/certs/server.pem" "/certs/server.key"
            "/repo/e2e-tests/signing").docRoot = certsSWorld.scriptDir) :=
  ⟨by decide, by decide, by decide, by decide,
    claim8_server_configuration cleanWorld certsSWorld (cleanCfg "/work")
      (ServeConfig.mk "" 4443 "/certs/server.pem" "/certs/server.key"
        "/repo/e2e-tests/signing") "/certs"
      (by decide) (by decide) (by decide) (by decide)⟩

/-- C9: beyond the three extensions of C2, the issued server
certificate also carries an `authorityKeyIdentifier` extension with
value `keyid,issuer`, as written in `server.ext`. -/
theorem claim9_leaf_authority_key_identifier (w : World) (leaf : Certificate)
    (hw : writableAll w.fs = true)
    (hleaf : (runServerPy w).2.2.contents "server.pem" = some (.pemCert leaf)) :
    leaf.authorityKeyIdentifier = some "keyid,issuer" := by
  obtain ⟨-, -, -, hsp⟩ := run_master w hw
  cases ha : w.sysOk 0 <;> cases hb : w.sysOk 1 <;> cases hc2 : w.sysOk 2 <;>
    simp [ha, hb, hc2] at hsp <;> rw [hsp] at hleaf <;> simp at hleaf
  · subst hleaf
    simp only [leafOf, signCSR]
    decide

/-- C9 witness: the leaf of the clean run carries the
`authorityKeyIdentifier` extension. -/
theorem claim9_witness :
    writableAll cleanWorld.fs = true
    ∧ (runServerPy cleanWorld).2.2.contents "server.pem" =
        some (.pemCert (leafOf cleanWorld))
    ∧ (leafOf cleanWorld).authorityKeyIdentifier = some "keyid,issuer" :=
  ⟨by decide, by decide,
    claim9_leaf_authority_key_identifier cleanWorld (leafOf cleanWorld)
      (by decide) (by decide)⟩

/-- C10: when `CERT_DIR` is unset, the signing-variant server dies
immediately with a `KeyError`; its trace consists of the failed
environment lookup only, so the HTTP server is never created and no
socket is ever bound. -/
theorem claim10_missing_cert_dir_fails_before_bind (sw : SWorld)
    (hd : sw.env "CERT_DIR" = none) :
    (runSigningServerPy sw).1 = .crashed (.keyError "CERT_DIR")
    ∧ (runSigningServerPy sw).2 = [.envRead "CERT_DIR" false]
    ∧ ∀ b p, SEvent.serverCreated b p ∉ (runSigningServerPy sw).2 := by
  refine ⟨?_, ?_, ?_⟩ <;> simp [runSigningServerPy, hd]

/-- C10 witness: the concrete environment with `CERT_DIR` unset. -/
theorem claim10_witness :
    noEnvSWorld.env "CERT_DIR" = none
    ∧ ((runSigningServerPy noEnvSWorld).1 = .crashed (.keyError "CERT_DIR")
        ∧ (runSigningServerPy noEnvSWorld).2 = [.envRead "CERT_DIR" false]
        ∧ ∀ b p, SEvent.serverCreated b p ∉ (runSigningServerPy noEnvSWorld).2) :=
  ⟨rfl, claim10_missing_cert_dir_fails_before_bind noEnvSWorld rfl⟩

end E2E
